import Mathlib

/-!
Shallow embedding of `homework.py`, the single source file of the
`homework_bot` repository, together with theorems settling the frozen
claims about its behaviour.

The program is a poll-evaluate-notify loop.  Its payloads are decoded
JSON values, so we first model the JSON data universe and the pieces of
Python semantics the source exercises: subscripting (`v[k]`), membership
(`k in v`), `dict.get`, truthiness (`x or y`), string conversion used in
f-strings, and the exceptions that these operations raise.  Fallible
operations return `Except PyExc`.  The network fetch and the Telegram
send are external collaborators: each cycle receives their outcomes as
oracle inputs (`FetchOutcome`, and a `sendOk : String → Bool` predicate
deciding which send calls succeed).
-/

namespace HomeworkBot

/-- A decoded JSON value, as produced by `response.json()`.  JSON objects
are represented as key/value lists; objects produced by an actual JSON
decode have pairwise distinct keys, which is the only situation the
source can encounter. -/
inductive Json where
  | null
  | bool (b : Bool)
  | int (n : Int)
  | str (s : String)
  | arr (xs : List Json)
  | obj (kvs : List (String × Json))

/-- The Python exceptions the embedded code can raise.  `exc` is a bare
`Exception`; `apiErrorException` and `sendMessageException` are the two
custom classes imported from the repository's `exceptions` module (they
subclass `Exception`, as required for `raise` and for being caught by the
loop's `except Exception` boundary). -/
inductive PyExc where
  | keyError (arg : Json)
  | valueError (msg : String)
  | typeError (msg : String)
  | indexError (msg : String)
  | attributeError (msg : String)
  | exc (msg : String)
  | jsonDecodeError (msg : String)
  | apiErrorException (msg : String)
  | sendMessageException (msg : String)

/-- First-match lookup in a key/value list; on the duplicate-free objects
a JSON decode produces this is exactly Python dict lookup. -/
def lookupKey : List (String × Json) → String → Option Json
  | [], _ => none
  | (k, v) :: rest, key => if k == key then some v else lookupKey rest key

mutual

/-- Python `repr` of a decoded JSON value (quote-escaping inside strings
is not reproduced; the source never feeds quoted strings back in). -/
def pyRepr : Json → String
  | .null => "None"
  | .bool true => "True"
  | .bool false => "False"
  | .int n => toString n
  | .str s => "\x27" ++ s ++ "\x27"
  | .arr xs => "[" ++ String.intercalate ", " (pyReprList xs) ++ "]"
  | .obj kvs => "\x7b" ++ String.intercalate ", " (pyReprObj kvs) ++ "\x7d"

def pyReprList : List Json → List String
  | [] => []
  | x :: xs => pyRepr x :: pyReprList xs

def pyReprObj : List (String × Json) → List String
  | [] => []
  | (k, v) :: kvs => ("\x27" ++ k ++ "\x27: " ++ pyRepr v) :: pyReprObj kvs

end

/-- Python `str` of a decoded JSON value, as substituted by an f-string. -/
def pyStr : Json → String
  | .str s => s
  | v => pyRepr v

mutual

/-- Python `==` on decoded JSON values (`True == 1` holds in Python, and
`bool` values decode from JSON `true`/`false`, so the bool/int cross
cases are included).  Dict comparison is keyed by position, which agrees
with Python on the order-preserving objects a JSON decode yields. -/
def pyEq : Json → Json → Bool
  | .null, .null => true
  | .bool a, .bool b => a == b
  | .bool a, .int n => (if a then (1 : Int) else 0) == n
  | .int n, .bool b => n == (if b then (1 : Int) else 0)
  | .int a, .int b => a == b
  | .str a, .str b => a == b
  | .arr xs, .arr ys => pyEqList xs ys
  | .obj xs, .obj ys => pyEqObj xs ys
  | _, _ => false

def pyEqList : List Json → List Json → Bool
  | [], [] => true
  | x :: xs, y :: ys => pyEq x y && pyEqList xs ys
  | _, _ => false

def pyEqObj : List (String × Json) → List (String × Json) → Bool
  | [], [] => true
  | (k1, v1) :: xs, (k2, v2) :: ys => k1 == k2 && pyEq v1 v2 && pyEqObj xs ys
  | _, _ => false

end

/-- List subscription `xs[i]` with Python's negative-index convention. -/
def listIndex (xs : List Json) (i : Int) : Except PyExc Json :=
  let j : Int := if i < 0 then i + xs.length else i
  if 0 ≤ j ∧ j < (xs.length : Int) then .ok (xs.getD j.toNat .null)
  else .error (.indexError "list index out of range")

/-- String subscription `s[i]`, yielding a one-character string. -/
def strIndex (s : String) (i : Int) : Except PyExc Json :=
  let j : Int := if i < 0 then i + s.data.length else i
  if 0 ≤ j ∧ j < (s.data.length : Int) then
    .ok (.str (String.mk [s.data.getD j.toNat default]))
  else .error (.indexError "string index out of range")

/-- Python subscription `v[key]` on decoded JSON values. -/
def pySubscript (v key : Json) : Except PyExc Json :=
  match v with
  | .obj kvs =>
    match key with
    | .str k =>
      match lookupKey kvs k with
      | some x => .ok x
      | none => .error (.keyError (.str k))
    | .arr _ => .error (.typeError "unhashable type: \x27list\x27")
    | .obj _ => .error (.typeError "unhashable type: \x27dict\x27")
    | _ => .error (.keyError key)
  | .arr xs =>
    match key with
    | .int i => listIndex xs i
    | .bool b => listIndex xs (if b then 1 else 0)
    | _ => .error (.typeError "list indices must be integers or slices")
  | .str s =>
    match key with
    | .int i => strIndex s i
    | .bool b => strIndex s (if b then 1 else 0)
    | _ => .error (.typeError "string indices must be integers")
  | _ => .error (.typeError "object is not subscriptable")

/-- Substring test backing Python's `sub in s` on strings. -/
def strContainsSub (s sub : String) : Bool :=
  sub == "" || (s.splitOn sub).length > 1

/-- Element-membership scan backing `item in xs` on lists. -/
def pyInArr (item : Json) : List Json → Bool
  | [] => false
  | x :: xs => pyEq item x || pyInArr item xs

/-- Python membership `item in container` on decoded JSON values: key
membership for dicts, element membership for lists, substring for
strings; non-iterable containers raise `TypeError`. -/
def pyIn (item container : Json) : Except PyExc Bool :=
  match container with
  | .obj kvs =>
    match item with
    | .str k => .ok (kvs.any (fun kv => kv.1 == k))
    | .null | .bool _ | .int _ => .ok false
    | _ => .error (.typeError "unhashable type")
  | .arr xs => .ok (pyInArr item xs)
  | .str s =>
    match item with
    | .str sub => .ok (strContainsSub s sub)
    | _ => .error (.typeError "\x27in <string>\x27 requires string as left operand")
  | _ => .error (.typeError "argument is not iterable")

/-- Python `dict.get(key)`: the value, or `None` when the key is absent;
a non-dict receiver has no `get` attribute. -/
def pyGet (v : Json) (key : String) : Except PyExc Json :=
  match v with
  | .obj kvs =>
    .ok (match lookupKey kvs key with
      | some x => x
      | none => .null)
  | _ => .error (.attributeError "object has no attribute \x27get\x27")

/-- Python truthiness of a decoded JSON value, as used by `x or y`. -/
def pyTruthy : Json → Bool
  | .null => false
  | .bool b => b
  | .int n => n != 0
  | .str s => s != ""
  | .arr xs => !xs.isEmpty
  | .obj kvs => !kvs.isEmpty

/-- Python `str(e)` for an exception, as substituted into the loop's
failure f-string.  `KeyError` prints the `repr` of its argument (hence
the extra quotes); the other classes print their message. -/
def excStr : PyExc → String
  | .keyError arg => pyRepr arg
  | .valueError m => m
  | .typeError m => m
  | .indexError m => m
  | .attributeError m => m
  | .exc m => m
  | .jsonDecodeError m => m
  | .apiErrorException m => m
  | .sendMessageException m => m

/-- Constant `HOMEWORK_STATUSES` of `homework.py`: the fixed mapping from
status code to verdict text (the spec's StatusCatalog). -/
def HOMEWORK_STATUSES : List (String × String) :=
  [("approved", "Работа проверена: ревьюеру всё понравилось. Ура!"),
   ("reviewing", "Работа взята на проверку ревьюером."),
   ("rejected", "Работа проверена: у ревьюера есть замечания.")]

/-- Membership `homework_status not in HOMEWORK_STATUSES` (dict key
membership, so hashed scalars that are not present give `False` and
unhashable values raise `TypeError`). -/
def statusesContains (key : Json) : Except PyExc Bool :=
  match key with
  | .str s => .ok (HOMEWORK_STATUSES.any (fun kv => kv.1 == s))
  | .null | .bool _ | .int _ => .ok false
  | _ => .error (.typeError "unhashable type")

/-- Value lookup `HOMEWORK_STATUSES[homework_status]` for a string key. -/
def statusesLookup (s : String) : Option String :=
  (HOMEWORK_STATUSES.find? (fun kv => kv.1 == s)).map (fun kv => kv.2)

/-- Fixed retry interval `RETRY_TIME` of `homework.py`, in seconds. -/
def RETRY_TIME : Nat := 600

/-- Function `send_message` of `homework.py`: attempts the Telegram send;
a transport failure (`telegram.error.TelegramError`) is re-raised as
`SendMessageException('Ошибка отправки сообщения')`.  Whether the
underlying send succeeds is the oracle `sendOk`. -/
def send_message (sendOk : String → Bool) (message : String) : Except PyExc Unit :=
  if sendOk message then .ok () else .error (.sendMessageException "Ошибка отправки сообщения")

/-- Outcome of the outbound HTTP request made by `get_api_answer`:
either a transport-level failure (a `requests` `RequestException`, whose
text is carried), or a response with an HTTP status code and a body that
either decodes to JSON or fails to decode. -/
inductive FetchOutcome where
  | transportError (msg : String)
  | response (status : Nat) (body : Except String Json)

/-- Effective `from_date` parameter computed by `get_api_answer`:
`timestamp = current_timestamp or int(time.time())`, i.e. the stored
cursor when truthy, the current wall-clock time otherwise. -/
def effTimestamp (current_timestamp : Json) (now : Int) : Json :=
  if pyTruthy current_timestamp then current_timestamp else Json.int now

/-- Function `get_api_answer` of `homework.py`.  The request carries
`from_date = effTimestamp current_timestamp now`; the wire outcome is the
oracle argument.  A transport failure is re-raised as
`APIerrorException`; a non-200 status raises a bare `Exception` with the
code; an undecodable body raises the decode error. -/
def get_api_answer (current_timestamp : Json) (now : Int) (outcome : FetchOutcome) :
    Except PyExc Json :=
  match outcome with
  | .transportError m => .error (.apiErrorException ("Ошибка при запросе к API: " ++ m))
  | .response code body =>
    if code ≠ 200 then .error (.exc ("Ошибка " ++ toString code))
    else
      match body with
      | .error _ => .error (.jsonDecodeError "Ошибка перевода ответа из json в Python")
      | .ok j => .ok j

/-- Function `check_response` of `homework.py`, line for line: first the
comparison `response['homeworks'] == []` (whose subscript raises
`KeyError` when the key is absent), then the `'homeworks' not in
response` guard, then the checks on `homework[0]`, finally returning the
whole `homeworks` value. -/
def check_response (response : Json) : Except PyExc Json :=
  match pySubscript response (.str "homeworks") with
  | .error e => .error e
  | .ok hws =>
    if pyEq hws (.arr []) then
      .error (.typeError "От API получен пустой список проверяемых работ.")
    else
      match pyIn (.str "homeworks") response with
      | .error e => .error e
      | .ok b =>
        if !b then
          .error (.valueError "В ответе на запрос отсутствует ключ \"homeworks\"")
        else
          match pySubscript response (.str "homeworks") with
          | .error e => .error e
          | .ok homework =>
            match pySubscript homework (.int 0) with
            | .error e => .error e
            | .ok h0 =>
              match h0 with
              | .null => .error (.valueError "Нет списка проверяемых работ.")
              | .obj _ => .ok homework
              | _ => .error (.typeError ("Ошибка типа данных! " ++ pyStr homework ++ " не словарь!"))

/-- Function `parse_status` of `homework.py`: key-membership checks on
its argument, extraction of `homework_name` and `status`, catalog
membership, and the formatted message
`Изменился статус проверки работы "{homework_name}". {verdict}`. -/
def parse_status (homework : Json) : Except PyExc String :=
  match pyIn (.str "homework_name") homework with
  | .error e => .error e
  | .ok b1 =>
    if !b1 then
      .error (.keyError (.str "Отсутствует ключ \"homework_name\" в ответе API"))
    else
      match pyIn (.str "status") homework with
      | .error e => .error e
      | .ok b2 =>
        if !b2 then
          .error (.exc "Отсутствует ключ \"status\" в ответе API")
        else
          match pySubscript homework (.str "homework_name") with
          | .error e => .error e
          | .ok homework_name =>
            match pySubscript homework (.str "status") with
            | .error e => .error e
            | .ok homework_status =>
              match statusesContains homework_status with
              | .error e => .error e
              | .ok inCat =>
                if !inCat then
                  .error (.exc ("Неизвестный статус работы: " ++ pyStr homework_status))
                else
                  match homework_status with
                  | .str st =>
                    match statusesLookup st with
                    | some verdict =>
                      .ok ("Изменился статус проверки работы \"" ++ pyStr homework_name ++ "\". " ++ verdict)
                    | none => .error (.keyError (.str st))
                  | _ => .error (.keyError homework_status)

/-- Mutable state owned by `main`'s loop: the timestamp cursor
`current_timestamp` (a decoded JSON value, since it is reassigned from
`response.get('current_date')`), and the dedup strings `status_message`
(LastStatusMessage) and `error_message` (LastErrorMessage). -/
structure BotState where
  current_timestamp : Json
  status_message : String
  error_message : String

/-- State of `main` on entering the loop: cursor `int(time.time())`,
both dedup strings empty. -/
def initState (now0 : Int) : BotState :=
  ⟨Json.int now0, "", ""⟩

/-- Environment of one loop iteration: the wire outcome of the fetch,
the wall-clock time read by `int(time.time())`, and which send calls the
Telegram transport lets succeed. -/
structure Event where
  fetch : FetchOutcome
  now : Int
  sendOk : String → Bool

/-- Lines 127-133 of `main`: compare the candidate status message with
`status_message`, send on difference, and assign `status_message =
status` after the send.  Returns the new `status_message`, the list of
messages passed to `send_message`, and the exception the fragment
raises, if any.  When the send raises, the assignment after it never
runs. -/
def statusNotify (sendOk : String → Bool) (status status_message : String) :
    String × List String × Option PyExc :=
  if status ≠ status_message then
    match send_message sendOk status with
    | .ok _ => (status, [status], none)
    | .error e => (status_message, [status], some e)
  else
    (status_message, [], none)

/-- Lines 134-139 of `main`, the `except Exception` handler: build
`message = f'Сбой в работе программы: {error}'`, compare with
`error_message`, send on difference, and assign `error_message =
message` after the send.  Returns the new `error_message`, the attempted
sends, and the exception the handler itself raises (uncaught, since the
handler is not inside its own `try`). -/
def errorHandler (sendOk : String → Bool) (error : PyExc) (error_message : String) :
    String × List String × Option PyExc :=
  let message := "Сбой в работе программы: " ++ excStr error
  if message ≠ error_message then
    match send_message sendOk message with
    | .ok _ => (message, [message], none)
    | .error e => (error_message, [message], some e)
  else
    (error_message, [], none)

/-- The `try` block of `main`'s loop body: fetch, reassign
`current_timestamp = response.get('current_date')`, then
`parse_status(check_response(response))` — note that `main` hands
`parse_status` the whole list returned by `check_response` — then the
status-notify fragment.  Returns the updated state, the attempted sends,
and the exception escaping the block, if any. -/
def cycleTry (ev : Event) (s : BotState) : BotState × List String × Option PyExc :=
  match get_api_answer s.current_timestamp ev.now ev.fetch with
  | .error e => (s, [], some e)
  | .ok response =>
    match pyGet response "current_date" with
    | .error e => (s, [], some e)
    | .ok cd =>
      let s1 : BotState := { s with current_timestamp := cd }
      match check_response response with
      | .error e => (s1, [], some e)
      | .ok hw =>
        match parse_status hw with
        | .error e => (s1, [], some e)
        | .ok status =>
          let r := statusNotify ev.sendOk status s1.status_message
          ({ s1 with status_message := r.1 }, r.2.1, r.2.2)

/-- Result of one full iteration of `main`'s `while True` body:
the state after it, every message handed to `send_message`, the
`from_date` value the iteration's fetch used, and the exception left
uncaught by the iteration (which, after the `finally` sleep, propagates
out of the loop). -/
structure IterResult where
  state : BotState
  attempts : List String
  used : Json
  uncaught : Option PyExc

/-- One iteration of `main`'s loop: the `try` block, then — when it
raised — the `except Exception` handler.  An exception raised by the
handler's own `send_message` is not caught by anything. -/
def iteration (ev : Event) (s : BotState) : IterResult :=
  let used := effTimestamp s.current_timestamp ev.now
  match cycleTry ev s with
  | (s1, att, none) => ⟨s1, att, used, none⟩
  | (s1, att, some e) =>
    let r := errorHandler ev.sendOk e s1.error_message
    ⟨{ s1 with error_message := r.1 }, att ++ r.2.1, used, r.2.2⟩

/-- Observable outcome of running `main`'s loop over a list of
per-iteration environments: final state, all attempted sends, the
`from_date` used by each executed fetch, how many iterations ran, how
many `finally` sleeps ran, and the exception that escaped the loop if it
crashed.  The `finally: time.sleep(RETRY_TIME)` runs even for a crashing
iteration, but it does not swallow the exception: the loop (and the
process) ends with it. -/
structure RunResult where
  state : BotState
  attempts : List String
  useds : List Json
  iters : Nat
  sleeps : Nat
  crashed : Option PyExc

/-- Run `main`'s loop over the given per-iteration environments,
stopping early when an iteration leaves an exception uncaught. -/
def runTrace : List Event → BotState → RunResult
  | [], s => ⟨s, [], [], 0, 0, none⟩
  | ev :: rest, s =>
    let r := iteration ev s
    match r.uncaught with
    | some e => ⟨r.state, r.attempts, [r.used], 1, 1, some e⟩
    | none =>
      let rr := runTrace rest r.state
      ⟨rr.state, r.attempts ++ rr.attempts, r.used :: rr.useds,
       rr.iters + 1, rr.sleeps + 1, rr.crashed⟩

/-- Failure message the handler builds for a transport-level fetch
failure whose underlying `requests` error prints as `m`. -/
def failMsg (m : String) : String :=
  "Сбой в работе программы: " ++ ("Ошибка при запросе к API: " ++ m)

/-- Payload of the spec's end-to-end example: one homework named `hw1`
with status `approved`, and `current_date` 1000. -/
def c1Payload : Json :=
  .obj [("homeworks", .arr [.obj [("homework_name", .str "hw1"), ("status", .str "approved")]]),
        ("current_date", .int 1000)]

/-- Iteration environment for the end-to-end example: the fetch returns
the example payload with HTTP 200, and every send succeeds. -/
def c1Event : Event :=
  ⟨.response 200 (.ok c1Payload), 77, fun _ => true⟩

/-!  Helper lemmas about the notify fragments and the iteration. -/

lemma statusNotify_send_ok (sendOk : String → Bool) (status last : String)
    (hne : status ≠ last) (hok : sendOk status = true) :
    statusNotify sendOk status last = (status, [status], none) := by
  unfold statusNotify send_message
  rw [if_pos hne, hok]
  rfl

lemma statusNotify_send_fail (sendOk : String → Bool) (status last : String)
    (hne : status ≠ last) (hfail : sendOk status = false) :
    statusNotify sendOk status last
      = (last, [status], some (.sendMessageException "Ошибка отправки сообщения")) := by
  unfold statusNotify send_message
  rw [if_pos hne, hfail]
  rfl

lemma statusNotify_dup (sendOk : String → Bool) (status : String) :
    statusNotify sendOk status status = (status, [], none) := by
  unfold statusNotify
  rw [if_neg (by simp)]

lemma errorHandler_send_ok (sendOk : String → Bool) (e : PyExc) (em : String)
    (hne : "Сбой в работе программы: " ++ excStr e ≠ em)
    (hok : sendOk ("Сбой в работе программы: " ++ excStr e) = true) :
    errorHandler sendOk e em
      = ("Сбой в работе программы: " ++ excStr e,
         ["Сбой в работе программы: " ++ excStr e], none) := by
  unfold errorHandler send_message
  rw [if_pos hne, hok]
  rfl

lemma errorHandler_send_fail (sendOk : String → Bool) (e : PyExc) (em : String)
    (hne : "Сбой в работе программы: " ++ excStr e ≠ em)
    (hfail : sendOk ("Сбой в работе программы: " ++ excStr e) = false) :
    errorHandler sendOk e em
      = (em, ["Сбой в работе программы: " ++ excStr e],
         some (.sendMessageException "Ошибка отправки сообщения")) := by
  unfold errorHandler send_message
  rw [if_pos hne, hfail]
  rfl

lemma errorHandler_dup (sendOk : String → Bool) (e : PyExc) (em : String)
    (heq : "Сбой в работе программы: " ++ excStr e = em) :
    errorHandler sendOk e em = (em, [], none) := by
  unfold errorHandler
  rw [if_neg (by simp [heq])]

lemma iteration_transportError (m : String) (now : Int) (sendOk : String → Bool) (s : BotState) :
    iteration ⟨.transportError m, now, sendOk⟩ s =
      ⟨{ s with error_message :=
           (errorHandler sendOk (.apiErrorException ("Ошибка при запросе к API: " ++ m))
             s.error_message).1 },
       (errorHandler sendOk (.apiErrorException ("Ошибка при запросе к API: " ++ m))
         s.error_message).2.1,
       effTimestamp s.current_timestamp now,
       (errorHandler sendOk (.apiErrorException ("Ошибка при запросе к API: " ++ m))
         s.error_message).2.2⟩ := rfl

lemma runTrace_cons (ev : Event) (rest : List Event) (s : BotState) :
    runTrace (ev :: rest) s =
      match (iteration ev s).uncaught with
      | some e =>
        ⟨(iteration ev s).state, (iteration ev s).attempts, [(iteration ev s).used],
         1, 1, some e⟩
      | none =>
        let rr := runTrace rest (iteration ev s).state
        ⟨rr.state, (iteration ev s).attempts ++ rr.attempts,
         (iteration ev s).used :: rr.useds, rr.iters + 1, rr.sleeps + 1, rr.crashed⟩ := rfl

lemma cycleTry_timestamp_of_get_null (ev : Event) (s : BotState) (j : Json)
    (hga : get_api_answer s.current_timestamp ev.now ev.fetch = Except.ok j)
    (hget : pyGet j "current_date" = Except.ok Json.null) :
    (cycleTry ev s).1.current_timestamp = Json.null := by
  unfold cycleTry
  simp only [hga, hget]
  split
  · rfl
  · split
    · rfl
    · rfl

lemma iteration_timestamp_null (ev : Event) (s : BotState)
    (h : (cycleTry ev s).1.current_timestamp = Json.null) :
    (iteration ev s).state.current_timestamp = Json.null := by
  unfold iteration
  rcases hc : cycleTry ev s with ⟨s1, att, unc⟩
  have h1 : s1.current_timestamp = Json.null := by rw [hc] at h; exact h
  cases unc with
  | none => exact h1
  | some e => exact h1

/-- C1: for the payload `{"homeworks": [{"homework_name": "hw1",
"status": "approved"}], "current_date": 1000}` and an empty
LastStatusMessage, one cycle does advance the cursor to 1000, but it
never produces or sends the claimed status message: `main` hands the
whole `homeworks` list to `parse_status`, whose membership check fails,
so the cycle raises `KeyError` and the error handler sends the failure
report instead, leaving `status_message` empty.  This evaluates the code
at the claim's input and exhibits the divergence. -/
theorem c1_cycle_sends_error_report_not_status :
    (iteration c1Event (initState 500)).state.current_timestamp = Json.int 1000 ∧
    (iteration c1Event (initState 500)).attempts
      = ["Сбой в работе программы: \x27Отсутствует ключ \"homework_name\" в ответе API\x27"] ∧
    (iteration c1Event (initState 500)).state.status_message = "" ∧
    (iteration c1Event (initState 500)).attempts
      ≠ ["Changed review status of \"hw1\". Работа проверена: ревьюеру всё понравилось. Ура!"] ∧
    (iteration c1Event (initState 500)).attempts
      ≠ ["Изменился статус проверки работы \"hw1\". Работа проверена: ревьюеру всё понравилось. Ура!"] ∧
    (iteration c1Event (initState 500)).uncaught = none :=
  ⟨rfl, rfl, rfl, by decide, by decide, rfl⟩

/-- C2 counterexample: when the error-report notify itself fails, the
`finally` sleep runs but does NOT swallow the `SendMessageException`:
the loop crashes after its first iteration and the second environment in
the list is never consumed — refuting the claim that the process does
not crash and the next iteration starts fresh. -/
theorem c2_counterexample :
    (runTrace [⟨.transportError "boom", 5, fun _ => false⟩,
               ⟨.transportError "boom", 5, fun _ => false⟩] (initState 1)).crashed
      = some (.sendMessageException "Ошибка отправки сообщения") ∧
    (runTrace [⟨.transportError "boom", 5, fun _ => false⟩,
               ⟨.transportError "boom", 5, fun _ => false⟩] (initState 1)).iters = 1 ∧
    (runTrace [⟨.transportError "boom", 5, fun _ => false⟩,
               ⟨.transportError "boom", 5, fun _ => false⟩] (initState 1)).sleeps = 1 :=
  ⟨rfl, rfl, rfl⟩

/-- C3 counterexample: a successful fetch whose payload has no
`current_date` key does not leave the cursor unchanged — `from_date` of
this iteration's fetch is 42, but `current_timestamp =
response.get(\x27current_date\x27)` sets the cursor to `None`, so the next
iteration's fetch falls back to the wall clock and uses 99 ≠ 42. -/
theorem c3_counterexample :
    (runTrace
        [⟨.response 200 (.ok (.obj [("homeworks",
            .arr [.obj [("homework_name", .str "hw1")]])])), 7, fun _ => true⟩,
         ⟨.transportError "z", 99, fun _ => true⟩]
        ⟨Json.int 42, "", ""⟩).useds = [Json.int 42, Json.int 99] ∧
    (runTrace
        [⟨.response 200 (.ok (.obj [("homeworks",
            .arr [.obj [("homework_name", .str "hw1")]])])), 7, fun _ => true⟩,
         ⟨.transportError "z", 99, fun _ => true⟩]
        ⟨Json.int 42, "", ""⟩).state.current_timestamp = Json.null ∧
    Json.int 99 ≠ Json.int 42 := by
  refine ⟨rfl, rfl, ?_⟩
  intro h
  injection h with h2
  exact absurd h2 (by decide)

/-- C5 counterexample: with candidate status `a` differing from the
empty LastStatusMessage and a failing Telegram transport, the notify is
attempted but `status_message = status` is never executed (the
assignment sits after the raising `send_message` call), so
LastStatusMessage keeps its old value — refuting "overwritten regardless
of the delivery outcome". -/
theorem c5_counterexample :
    (statusNotify (fun _ => false) "a" "").2.1 = ["a"] ∧
    (statusNotify (fun _ => false) "a" "").1 = "" ∧
    (statusNotify (fun _ => false) "a" "").1 ≠ "a" :=
  ⟨rfl, rfl, by decide⟩

/-- C9 counterexample: a transport-level fetch failure whose resulting
error report fails to send terminates the process — the run executes
only one of the two scheduled cycles and crashes with the uncaught
`SendMessageException`, refuting "for every transport failure the next
cycle is attempted". -/
theorem c9_counterexample :
    (runTrace [⟨.transportError "down", 3, fun _ => false⟩,
               ⟨.transportError "down", 4, fun _ => true⟩] (initState 2)).iters = 1 ∧
    (runTrace [⟨.transportError "down", 3, fun _ => false⟩,
               ⟨.transportError "down", 4, fun _ => true⟩] (initState 2)).crashed
      = some (.sendMessageException "Ошибка отправки сообщения") :=
  ⟨rfl, rfl⟩

/-- C2 amended: when the error-report notify of step 5 fails with a
`SendMessageException` (the spec's DeliveryError), the guaranteed
`finally` sleep of that iteration still runs (one sleep is counted), but
the exception is NOT swallowed: the loop terminates with it after that
single iteration, whatever environments were still scheduled — the next
iteration does not start. -/
theorem c2_amended (s : BotState) (m : String) (now : Int) (sendOk : String → Bool)
    (rest : List Event)
    (hne : failMsg m ≠ s.error_message)
    (hfail : sendOk (failMsg m) = false) :
    (runTrace (⟨.transportError m, now, sendOk⟩ :: rest) s).sleeps = 1 ∧
    (runTrace (⟨.transportError m, now, sendOk⟩ :: rest) s).iters = 1 ∧
    (runTrace (⟨.transportError m, now, sendOk⟩ :: rest) s).crashed
      = some (.sendMessageException "Ошибка отправки сообщения") := by
  have herr := errorHandler_send_fail sendOk
      (.apiErrorException ("Ошибка при запросе к API: " ++ m)) s.error_message hne hfail
  have hit : iteration ⟨.transportError m, now, sendOk⟩ s
      = ⟨{ s with error_message := s.error_message },
         [failMsg m], effTimestamp s.current_timestamp now,
         some (.sendMessageException "Ошибка отправки сообщения")⟩ := by
    rw [iteration_transportError, herr]
    rfl
  rw [runTrace_cons, hit]
  exact ⟨rfl, rfl, rfl⟩

/-- C2 witness: a concrete run hitting the amended behaviour. -/
theorem c2_amended_witness :
    (runTrace [⟨.transportError "x", 1, fun _ => false⟩,
               ⟨.transportError "x", 1, fun _ => false⟩] (initState 0)).sleeps = 1 ∧
    (runTrace [⟨.transportError "x", 1, fun _ => false⟩,
               ⟨.transportError "x", 1, fun _ => false⟩] (initState 0)).iters = 1 ∧
    (runTrace [⟨.transportError "x", 1, fun _ => false⟩,
               ⟨.transportError "x", 1, fun _ => false⟩] (initState 0)).crashed
      = some (.sendMessageException "Ошибка отправки сообщения") :=
  c2_amended (initState 0) "x" 1 (fun _ => false)
    [⟨.transportError "x", 1, fun _ => false⟩] (by decide) rfl

/-- C3 amended: for every successful fetch returning an object payload
with no `current_date` key, the cursor is NOT left unchanged: it is
reassigned to `None` (the value `response.get` returns for a missing
key), so the next iteration's fetch falls back to the wall-clock reading
`int(time.time())` instead of reusing this iteration's cursor. -/
theorem c3_amended (kvs : List (String × Json)) (s : BotState) (now : Int)
    (sendOk : String → Bool)
    (habs : lookupKey kvs "current_date" = none) :
    (iteration ⟨.response 200 (.ok (.obj kvs)), now, sendOk⟩ s).state.current_timestamp
      = Json.null ∧
    ∀ now2 : Int,
      effTimestamp
        (iteration ⟨.response 200 (.ok (.obj kvs)), now, sendOk⟩ s).state.current_timestamp
        now2 = Json.int now2 := by
  have hget : pyGet (.obj kvs) "current_date" = Except.ok Json.null := by
    simp only [pyGet, habs]
  have h1 := cycleTry_timestamp_of_get_null
    ⟨.response 200 (.ok (.obj kvs)), now, sendOk⟩ s (.obj kvs) rfl hget
  have h2 := iteration_timestamp_null _ _ h1
  refine ⟨h2, fun now2 => ?_⟩
  rw [h2]
  rfl

/-- C3 witness: the amended behaviour at a concrete payload. -/
theorem c3_amended_witness :
    (iteration ⟨.response 200 (.ok (.obj [("homeworks", .arr [])])), 5, fun _ => true⟩
        (initState 0)).state.current_timestamp = Json.null ∧
    effTimestamp
      (iteration ⟨.response 200 (.ok (.obj [("homeworks", .arr [])])), 5, fun _ => true⟩
        (initState 0)).state.current_timestamp 99 = Json.int 99 := by
  have h := c3_amended [("homeworks", Json.arr [])] (initState 0) 5 (fun _ => true) rfl
  exact ⟨h.1, h.2 99⟩

/-- C9 amended: a transport-level fetch failure by itself never
terminates the process — provided the resulting error report is either
suppressed by the LastErrorMessage dedup or delivered successfully, the
iteration leaves no uncaught exception and the run continues into the
remaining scheduled cycles after the fixed-interval sleep.  (When that
error report itself fails to send, the process does crash; see the C2
family.) -/
theorem c9_amended (s : BotState) (m : String) (now : Int) (sendOk : String → Bool)
    (h : failMsg m = s.error_message ∨ sendOk (failMsg m) = true) :
    (iteration ⟨.transportError m, now, sendOk⟩ s).uncaught = none ∧
    ∀ rest : List Event,
      (runTrace (⟨.transportError m, now, sendOk⟩ :: rest) s).iters
        = (runTrace rest (iteration ⟨.transportError m, now, sendOk⟩ s).state).iters + 1 ∧
      (runTrace (⟨.transportError m, now, sendOk⟩ :: rest) s).crashed
        = (runTrace rest (iteration ⟨.transportError m, now, sendOk⟩ s).state).crashed := by
  have hunc : (iteration ⟨.transportError m, now, sendOk⟩ s).uncaught = none := by
    rw [iteration_transportError]
    by_cases hd : failMsg m = s.error_message
    · rw [errorHandler_dup sendOk
        (.apiErrorException ("Ошибка при запросе к API: " ++ m)) s.error_message
        (by exact hd)]
    · rcases h with h | h
      · exact absurd h hd
      · rw [errorHandler_send_ok sendOk
          (.apiErrorException ("Ошибка при запросе к API: " ++ m)) s.error_message
          (by exact hd) (by exact h)]
  refine ⟨hunc, fun rest => ?_⟩
  rw [runTrace_cons, hunc]
  exact ⟨rfl, rfl⟩

/-- C9 witness: a concrete transport failure with a working notifier,
followed by one more scheduled cycle, which is reached. -/
theorem c9_amended_witness :
    (iteration ⟨.transportError "netfail", 3, fun _ => true⟩ (initState 0)).uncaught
      = none ∧
    (runTrace [⟨.transportError "netfail", 3, fun _ => true⟩,
               ⟨.transportError "netfail", 4, fun _ => true⟩] (initState 0)).iters
      = (runTrace [⟨.transportError "netfail", 4, fun _ => true⟩]
          (iteration ⟨.transportError "netfail", 3, fun _ => true⟩ (initState 0)).state).iters
        + 1 ∧
    (runTrace [⟨.transportError "netfail", 3, fun _ => true⟩,
               ⟨.transportError "netfail", 4, fun _ => true⟩] (initState 0)).crashed
      = (runTrace [⟨.transportError "netfail", 4, fun _ => true⟩]
          (iteration ⟨.transportError "netfail", 3, fun _ => true⟩ (initState 0)).state).crashed := by
  have h := c9_amended (initState 0) "netfail" 3 (fun _ => true) (Or.inr rfl)
  exact ⟨h.1, (h.2 [⟨.transportError "netfail", 4, fun _ => true⟩]).1,
         (h.2 [⟨.transportError "netfail", 4, fun _ => true⟩]).2⟩

/-- C5 amended: whenever the candidate status message differs from
LastStatusMessage a notify IS attempted, but LastStatusMessage is
overwritten with the candidate only when that delivery succeeds; when
the notify fails with the delivery error, the assignment after the send
never runs, LastStatusMessage keeps its previous value, and the
`SendMessageException` propagates to the step-5 handler. -/
theorem c5_amended (status last : String) (sendOk : String → Bool)
    (hne : status ≠ last) :
    (statusNotify sendOk status last).2.1 = [status] ∧
    (sendOk status = true →
      (statusNotify sendOk status last).1 = status ∧
      (statusNotify sendOk status last).2.2 = none) ∧
    (sendOk status = false →
      (statusNotify sendOk status last).1 = last ∧
      (statusNotify sendOk status last).2.2
        = some (.sendMessageException "Ошибка отправки сообщения")) := by
  refine ⟨?_, fun hok => ?_, fun hfail => ?_⟩
  · cases hs : sendOk status
    · rw [statusNotify_send_fail sendOk status last hne hs]
    · rw [statusNotify_send_ok sendOk status last hne hs]
  · rw [statusNotify_send_ok sendOk status last hne hok]
    exact ⟨rfl, rfl⟩
  · rw [statusNotify_send_fail sendOk status last hne hfail]
    exact ⟨rfl, rfl⟩

/-- C5 witness: the amended behaviour at a concrete candidate and a
failing transport. -/
theorem c5_amended_witness :
    (statusNotify (fun _ => false) "b" "").2.1 = ["b"] ∧
    (statusNotify (fun _ => false) "b" "").1 = "" ∧
    (statusNotify (fun _ => false) "b" "").2.2
      = some (.sendMessageException "Ошибка отправки сообщения") := by
  have h := c5_amended "b" "" (fun _ => false) (by decide)
  exact ⟨h.1, (h.2.2 rfl).1, (h.2.2 rfl).2⟩

/-- C6: the status notify is attempted only when the candidate differs
from LastStatusMessage, and running the compare-and-send fragment twice
with the same candidate (the second time starting from the
LastStatusMessage the first run recorded) attempts exactly one send in
total: the first run sends and records the candidate, the second is
suppressed by the dedup guard.  (In `main` as composed this fragment is
unreachable — see the C1 family — so the claim is settled against the
fragment at its cited lines.) -/
theorem c6_status_dedup (m l : String) (sendOk : String → Bool)
    (hne : m ≠ l) (hok : sendOk m = true) :
    (∀ cand last : String, ∀ f : String → Bool,
      (statusNotify f cand last).2.1 ≠ [] → cand ≠ last) ∧
    (statusNotify sendOk m l).1 = m ∧
    (statusNotify sendOk m l).2.1 = [m] ∧
    (statusNotify sendOk m (statusNotify sendOk m l).1).2.1 = [] ∧
    ((statusNotify sendOk m l).2.1
      ++ (statusNotify sendOk m (statusNotify sendOk m l).1).2.1).length = 1 := by
  have h1 := statusNotify_send_ok sendOk m l hne hok
  refine ⟨?_, ?_, ?_, ?_, ?_⟩
  · intro cand last f hatt
    by_cases hcl : cand = last
    · subst hcl
      rw [statusNotify_dup] at hatt
      exact absurd rfl hatt
    · exact hcl
  · rw [h1]
  · rw [h1]
  · rw [h1, statusNotify_dup]
  · rw [h1, statusNotify_dup]
    rfl

/-- C6 witness: the dedup invariant at concrete messages. -/
theorem c6_status_dedup_witness :
    (statusNotify (fun _ => true) "msg" "").1 = "msg" ∧
    (statusNotify (fun _ => true) "msg" "").2.1 = ["msg"] ∧
    (statusNotify (fun _ => true) "msg"
      (statusNotify (fun _ => true) "msg" "").1).2.1 = [] ∧
    ((statusNotify (fun _ => true) "msg" "").2.1
      ++ (statusNotify (fun _ => true) "msg"
           (statusNotify (fun _ => true) "msg" "").1).2.1).length = 1 := by
  have h := c6_status_dedup "msg" "" (fun _ => true) (by decide) rfl
  exact ⟨h.2.1, h.2.2.1, h.2.2.2.1, h.2.2.2.2⟩

/-- C8: for every object payload whose `homeworks` key maps to the empty
list, `check_response` fails with the empty-result error — the
`TypeError` carrying `От API получен пустой список проверяемых работ.`,
which is what the spec's taxonomy names EmptyResultError. -/
theorem c8_empty_homeworks (kvs : List (String × Json))
    (hkey : lookupKey kvs "homeworks" = some (.arr [])) :
    check_response (.obj kvs)
      = .error (.typeError "От API получен пустой список проверяемых работ.") := by
  unfold check_response
  simp only [pySubscript, hkey]
  rfl

/-- C8 witness: the empty-result failure at a concrete payload. -/
theorem c8_empty_homeworks_witness :
    check_response (.obj [("homeworks", .arr [])])
      = .error (.typeError "От API получен пустой список проверяемых работ.") :=
  c8_empty_homeworks [("homeworks", Json.arr [])] rfl

lemma iteration_transport_dup (m : String) (now : Int) (sendOk : String → Bool)
    (s : BotState) (h : s.error_message = failMsg m) :
    (iteration ⟨.transportError m, now, sendOk⟩ s).attempts = [] ∧
    (iteration ⟨.transportError m, now, sendOk⟩ s).uncaught = none ∧
    (iteration ⟨.transportError m, now, sendOk⟩ s).state = s := by
  have hdup := errorHandler_dup sendOk
    (.apiErrorException ("Ошибка при запросе к API: " ++ m)) s.error_message
    (by exact h.symm)
  refine ⟨?_, ?_, ?_⟩ <;> rw [iteration_transportError, hdup]

lemma runTrace_cons_none (ev : Event) (rest : List Event) (s : BotState)
    (h : (iteration ev s).uncaught = none) :
    runTrace (ev :: rest) s =
      ⟨(runTrace rest (iteration ev s).state).state,
       (iteration ev s).attempts ++ (runTrace rest (iteration ev s).state).attempts,
       (iteration ev s).used :: (runTrace rest (iteration ev s).state).useds,
       (runTrace rest (iteration ev s).state).iters + 1,
       (runTrace rest (iteration ev s).state).sleeps + 1,
       (runTrace rest (iteration ev s).state).crashed⟩ := by
  rw [runTrace_cons, h]

lemma runTrace_replicate_dup (m : String) (now : Int) (sendOk : String → Bool)
    (n : Nat) :
    ∀ s : BotState, s.error_message = failMsg m →
      (runTrace (List.replicate n ⟨.transportError m, now, sendOk⟩) s).attempts = [] ∧
      (runTrace (List.replicate n ⟨.transportError m, now, sendOk⟩) s).state = s ∧
      (runTrace (List.replicate n ⟨.transportError m, now, sendOk⟩) s).crashed = none := by
  induction n with
  | zero => exact fun s h => ⟨rfl, rfl, rfl⟩
  | succ n ih =>
    intro s h
    have hdup := iteration_transport_dup m now sendOk s h
    have hrec := ih s h
    refine ⟨?_, ?_, ?_⟩
    · rw [List.replicate_succ, runTrace_cons_none _ _ _ hdup.2.1, hdup.1, hdup.2.2, hrec.1]
      rfl
    · rw [List.replicate_succ, runTrace_cons_none _ _ _ hdup.2.1, hdup.2.2, hrec.2.1]
    · rw [List.replicate_succ, runTrace_cons_none _ _ _ hdup.2.1, hdup.2.2, hrec.2.2]

/-- C7: the error notification is attempted only when the constructed
failure message differs from LastErrorMessage, and two consecutive
cycles failing with the same transport error attempt exactly one error
notification: the first cycle sends the failure report and records it as
LastErrorMessage, the second cycle (whatever its Telegram oracle)
attempts nothing and leaves no uncaught exception. -/
theorem c7_error_dedup (s : BotState) (m : String) (now1 : Int) (sendOk : String → Bool)
    (hne : failMsg m ≠ s.error_message) (hok : sendOk (failMsg m) = true) :
    (∀ f : String → Bool, ∀ e : PyExc, ∀ em : String,
      (errorHandler f e em).2.1 ≠ [] → "Сбой в работе программы: " ++ excStr e ≠ em) ∧
    (iteration ⟨.transportError m, now1, sendOk⟩ s).attempts = [failMsg m] ∧
    (iteration ⟨.transportError m, now1, sendOk⟩ s).uncaught = none ∧
    (iteration ⟨.transportError m, now1, sendOk⟩ s).state.error_message = failMsg m ∧
    ∀ (now2 : Int) (sendOk2 : String → Bool),
      (iteration ⟨.transportError m, now2, sendOk2⟩
          (iteration ⟨.transportError m, now1, sendOk⟩ s).state).attempts = [] ∧
      (iteration ⟨.transportError m, now2, sendOk2⟩
          (iteration ⟨.transportError m, now1, sendOk⟩ s).state).uncaught = none := by
  have herr := errorHandler_send_ok sendOk
    (.apiErrorException ("Ошибка при запросе к API: " ++ m)) s.error_message
    (by exact hne) (by exact hok)
  have hit : iteration ⟨.transportError m, now1, sendOk⟩ s
      = ⟨{ s with error_message := failMsg m }, [failMsg m],
         effTimestamp s.current_timestamp now1, none⟩ := by
    rw [iteration_transportError, herr]
    rfl
  refine ⟨?_, ?_, ?_, ?_, ?_⟩
  · intro f e em hatt
    by_cases hc : "Сбой в работе программы: " ++ excStr e = em
    · exact absurd (by rw [errorHandler_dup f e em hc]) hatt
    · exact hc
  · rw [hit]
  · rw [hit]
  · rw [hit]
  · intro now2 sendOk2
    rw [hit]
    exact ⟨(iteration_transport_dup m now2 sendOk2 _ rfl).1,
           (iteration_transport_dup m now2 sendOk2 _ rfl).2.1⟩

/-- C7 witness: the error dedup at a concrete transport failure. -/
theorem c7_error_dedup_witness :
    (iteration ⟨.transportError "w7", 1, fun _ => true⟩ (initState 0)).attempts
      = [failMsg "w7"] ∧
    (iteration ⟨.transportError "w7", 1, fun _ => true⟩ (initState 0)).uncaught = none ∧
    (iteration ⟨.transportError "w7", 1, fun _ => true⟩
        (initState 0)).state.error_message = failMsg "w7" ∧
    (iteration ⟨.transportError "w7", 2, fun _ => true⟩
        (iteration ⟨.transportError "w7", 1, fun _ => true⟩ (initState 0)).state).attempts
      = [] ∧
    (iteration ⟨.transportError "w7", 2, fun _ => true⟩
        (iteration ⟨.transportError "w7", 1, fun _ => true⟩ (initState 0)).state).uncaught
      = none := by
  have h := c7_error_dedup (initState 0) "w7" 1 (fun _ => true) (by decide) rfl
  exact ⟨h.2.1, h.2.2.1, h.2.2.2.1,
         (h.2.2.2.2 2 (fun _ => true)).1, (h.2.2.2.2 2 (fun _ => true)).2⟩

/-- C10: LastErrorMessage is never reset by the cycle body — no branch of
the `try` block writes `error_message`, so a cycle that raises nothing
leaves it untouched — and once the failure report for a transport error
has been delivered, any number of further cycles failing with that same
description attempt no error notification at all and leave the state
(including LastErrorMessage) exactly as it was. -/
theorem c10_error_message_persists (s : BotState) (m : String) (now : Int)
    (sendOk : String → Bool) (n : Nat)
    (h : s.error_message = failMsg m) :
    (∀ ev : Event, ∀ s0 : BotState,
      (cycleTry ev s0).1.error_message = s0.error_message) ∧
    (runTrace (List.replicate n ⟨.transportError m, now, sendOk⟩) s).attempts = [] ∧
    (runTrace (List.replicate n ⟨.transportError m, now, sendOk⟩) s).state = s ∧
    (runTrace (List.replicate n ⟨.transportError m, now, sendOk⟩) s).crashed = none := by
  refine ⟨?_, runTrace_replicate_dup m now sendOk n s h⟩
  intro ev s0
  unfold cycleTry
  repeat' split
  all_goals rfl

/-- C10 witness: persistence across three further same-error cycles at a
concrete state whose LastErrorMessage already holds the report. -/
theorem c10_error_message_persists_witness :
    (runTrace (List.replicate 3 ⟨.transportError "w10", 4, fun _ => true⟩)
        ⟨Json.int 0, "", failMsg "w10"⟩).attempts = [] ∧
    (runTrace (List.replicate 3 ⟨.transportError "w10", 4, fun _ => true⟩)
        ⟨Json.int 0, "", failMsg "w10"⟩).state = ⟨Json.int 0, "", failMsg "w10"⟩ ∧
    (runTrace (List.replicate 3 ⟨.transportError "w10", 4, fun _ => true⟩)
        ⟨Json.int 0, "", failMsg "w10"⟩).crashed = none := by
  have h := c10_error_message_persists ⟨Json.int 0, "", failMsg "w10"⟩ "w10" 4
    (fun _ => true) 3 rfl
  exact h.2

lemma any_of_lookup : ∀ (kvs : List (String × Json)) (k : String) (v : Json),
    lookupKey kvs k = some v → kvs.any (fun kv => kv.1 == k) = true
  | [], k, v, h => by simp [lookupKey] at h
  | (k1, v1) :: tl, k, v, h => by
    by_cases hkk : (k1 == k) = true
    · simp [List.any_cons, hkk]
    · have h2 : lookupKey tl k = some v := by
        simp only [lookupKey] at h
        rwa [if_neg hkk] at h
      have h3 := any_of_lookup tl k v h2
      simp [List.any_cons, hkk, h3]

lemma pySubscript_no_valueError (v key : Json) (msg : String) :
    pySubscript v key ≠ Except.error (.valueError msg) := by
  cases v <;> cases key <;>
    simp only [pySubscript, listIndex, strIndex] <;>
    (repeat' split) <;>
    simp

/-- C4: a payload with no `homeworks` key does make `check_response`
fail, but with a raw `KeyError('homeworks')` raised by the subscript in
`response['homeworks'] == []` — not with the dedicated missing-key
`ValueError` the code itself declares two lines later (the spec's
MissingFieldError): that branch is unreachable for every payload, since
the subscript has already raised by the time the `not in` guard would
run. -/
theorem c4_missing_homeworks (kvs : List (String × Json))
    (habs : lookupKey kvs "homeworks" = none) :
    check_response (.obj kvs) = .error (.keyError (.str "homeworks")) ∧
    ∀ j : Json, check_response j
      ≠ .error (.valueError "В ответе на запрос отсутствует ключ \"homeworks\"") := by
  constructor
  · unfold check_response
    simp only [pySubscript, habs]
  · intro j
    unfold check_response
    cases j with
    | obj kvs2 =>
      cases hl : lookupKey kvs2 "homeworks" with
      | none => simp [pySubscript, hl]
      | some v =>
        have hsub : pySubscript (.obj kvs2) (.str "homeworks") = .ok v := by
          simp only [pySubscript, hl]
        have hmem : pyIn (.str "homeworks") (.obj kvs2) = .ok true := by
          simp only [pyIn]
          rw [any_of_lookup kvs2 "homeworks" v hl]
        by_cases hemp : pyEq v (.arr []) = true
        · simp [hsub, hemp]
        · have hemp2 : pyEq v (.arr []) = false := by
            revert hemp
            cases pyEq v (.arr []) <;> simp
          cases h0 : pySubscript v (.int 0) with
          | error e =>
            have hne := pySubscript_no_valueError v (.int 0)
              "В ответе на запрос отсутствует ключ \"homeworks\""
            rw [h0] at hne
            simp [hsub, hemp2, hmem, h0, hne]
          | ok h0v =>
            cases h0v <;> simp [hsub, hemp2, hmem, h0]
    | null => simp [pySubscript]
    | bool b => simp [pySubscript]
    | int n => simp [pySubscript]
    | str st => simp [pySubscript]
    | arr xs => simp [pySubscript]

/-- C4 witness: the missing-key failure at the empty payload. -/
theorem c4_missing_homeworks_witness :
    check_response (.obj []) = .error (.keyError (.str "homeworks")) :=
  (c4_missing_homeworks [] rfl).1

end HomeworkBot
